import Mathlib

/-!
Verification of the MC3000 USB protocol codec (mc3000.py).

The Python module is shallowly embedded: byte buffers (Python bytes objects)
are lists of naturals whose entries are byte values below 256, struct-unpacked
fields become explicit byte arithmetic at the offsets determined by the format
strings, dictionary and tuple lookups become Option-valued tables, and raised
exceptions become Except.error values. The USB transport is modelled as a
function from slot number to the 64-byte response frame the device returns.
-/

namespace MC3000

/-- Unsigned byte at offset i of a buffer (a B field of struct.unpack, or
plain indexing of a bytes object). -/
def u8 (r : List Nat) (i : Nat) : Nat := r.getD i 0

/-- Signed big-endian 16-bit field at offset i (an h field of struct.unpack
with the > prefix). -/
def s16be (r : List Nat) (i : Nat) : Int :=
  let v := 256 * r.getD i 0 + r.getD (i + 1) 0
  if v < 32768 then (v : Int) else (v : Int) - 65536

/-- Signed byte at offset i (a b field of struct.unpack). -/
def s8 (r : List Nat) (i : Nat) : Int :=
  let v := r.getD i 0
  if v < 128 then (v : Int) else (v : Int) - 256

/-- BATTERY_MODE dictionary: charger operational modes. A missing key is a
KeyError in Python, hence Option. -/
def BATTERY_MODE : Nat → Option String
  | 0 => some "Charging"
  | 1 => some "Refreshing"
  | 2 => some "Storing"
  | 3 => some "Discharging"
  | 4 => some "Cycling"
  | _ => none

/-- BATTERY_TYPE dictionary: battery chemistries supported by the MC3000. -/
def BATTERY_TYPE : Nat → Option String
  | 0 => some "LiIon"
  | 1 => some "LiFe"
  | 2 => some "LiHV"
  | 3 => some "NiMH"
  | 4 => some "NiCd"
  | 5 => some "NiZn"
  | 6 => some "Eneloop"
  | _ => none

/-- CYCLE_MODE dictionary: cycle modes for charge cycling operations. -/
def CYCLE_MODE : Nat → Option String
  | 0 => some "C>D"
  | 1 => some "C>D>C"
  | 2 => some "D>C"
  | 3 => some "D>C>C"
  | _ => none

/-- TEM_UNIT tuple: temperature units, indexed by the raw selector byte.
Indexing out of range is an IndexError in Python, modelled by List.get?. -/
def TEM_UNIT : List String := ["°C", "°F"]

/-- CMD_PACKET_HEADER constant b"\x0f\x04". -/
def CMD_PACKET_HEADER : List Nat := [0x0f, 0x04]

/-- CMD_PACKET_TAIL constant b"\xff\xff". -/
def CMD_PACKET_TAIL : List Nat := [0xff, 0xff]

/-- CMD_READ_PROGRESS_DATA constant b"\x55" (85). -/
def CMD_READ_PROGRESS_DATA : List Nat := [0x55]

/-- CMD_READ_CHARGER_DATA constant b"\x5f" (95). -/
def CMD_READ_CHARGER_DATA : List Nat := [0x5f]

/-- MC3000.packet_checksum: crc starts at 0 and for i in range(0, 63) adds
data_packet[i] and masks with 0xff. The mask of a nonnegative value is the
remainder mod 256. -/
def packet_checksum (data_packet : List Nat) : Nat :=
  (List.range 63).foldl (fun crc i => (crc + data_packet.getD i 0) % 256) 0

/-- The inbound-frame integrity test used by get_battery_data and
get_charging_progress: response[-1] == packet_checksum(response). -/
def checksum_ok (r : List Nat) : Bool :=
  r.getD (r.length - 1) 0 == packet_checksum r

/-- int.from_bytes(-, byteorder="little") on a bytes value. -/
def int_from_bytes_le : List Nat → Nat
  | [] => 0
  | b :: rest => b + 256 * int_from_bytes_le rest

/-- struct.pack of one value with format b: the value must lie in
[-128, 127], and is stored as its byte mod 256 (twos complement).
Out-of-range values raise struct.error, modelled by none. -/
def packSignedByte (n : Int) : Option Nat :=
  if -128 ≤ n ∧ n ≤ 127 then some ((n % 256).toNat) else none

/-- struct.pack("2scxbb2s", CMD_PACKET_HEADER, cmd, buffer, slotcmd,
CMD_PACKET_TAIL): two header bytes, the one-byte opcode, a zero pad byte,
two signed bytes, and two tail bytes; 8 bytes in total. A b value out of
range makes the whole pack fail. -/
def pack_cmd (cmd : List Nat) (buffer slotcmd : Int) : Option (List Nat) :=
  match packSignedByte buffer, packSignedByte slotcmd with
  | some b1, some b2 =>
      some (CMD_PACKET_HEADER ++ cmd ++ [0x00] ++ [b1, b2] ++ CMD_PACKET_TAIL)
  | _, _ => none

/-- Outcome of MC3000.send: either a frame was handed to send_raw, or
struct.pack raised, or no branch matched and the method silently returned
None without sending anything. -/
inductive SendResult : Type
  | sent (frame : List Nat) : SendResult
  | packError : SendResult
  | ignored : SendResult
deriving DecidableEq

/-- MC3000.send(cmd, buffer): the two recognized opcodes build and send a
command frame whose slotcmd byte is int.from_bytes(cmd, "little") + buffer;
any other opcode falls through both branches and nothing happens. -/
def send (cmd : List Nat) (buffer : Int) : SendResult :=
  if cmd = CMD_READ_CHARGER_DATA then
    match pack_cmd cmd buffer ((int_from_bytes_le cmd : Int) + buffer) with
    | some frame => SendResult.sent frame
    | none => SendResult.packError
  else if cmd = CMD_READ_PROGRESS_DATA then
    match pack_cmd cmd buffer ((int_from_bytes_le cmd : Int) + buffer) with
    | some frame => SendResult.sent frame
    | none => SendResult.packError
  else SendResult.ignored

/-- Uppercase hexadecimal digit character for a value below 16. -/
def hexDigitChar (n : Nat) : Char :=
  if n < 10 then Char.ofNat (48 + n) else Char.ofNat (55 + n)

/-- Python format spec X applied to one response byte (value below 256):
uppercase hexadecimal without leading zeros, hence one digit below 16 and
two digits otherwise. -/
def formatHexUpper (b : Nat) : String :=
  if b < 16 then String.mk [hexDigitChar b]
  else String.mk [hexDigitChar (b / 16), hexDigitChar (b % 16)]

/-- Python format spec 0>2 (right align to width 2, fill with zero). -/
def padZero2 (s : String) : String :=
  if s.length < 2 then String.mk (List.replicate (2 - s.length) '0' ++ s.data)
  else s

/-- The two characters one response byte contributes to the machine_id
string: format X followed by the 0>2 padding. -/
def byteHexChars (b : Nat) : List Char := (padZero2 (formatHexUpper b)).data

/-- The crc accumulator of the loop in get_machine_info: for j in range(16),
when j < 15 add response[16 + j]. -/
def machineCrcRaw (r : List Nat) : Nat :=
  (List.range 16).foldl (fun crc j => if j < 15 then crc + r.getD (16 + j) 0 else crc) 0

/-- The machine_id accumulator of the same loop: for j in range(16), append
the two zero-padded uppercase hex digits of response[16 + j]. The string is
accumulated as its character list. -/
def machineIdChars (r : List Nat) : List Char :=
  (List.range 16).foldl (fun s j => s ++ byteHexChars (r.getD (16 + j) 0)) []

/-- The machine_id string built by get_machine_info. -/
def machineIdOf (r : List Nat) : String := String.mk (machineIdChars r)

/-- The finalized machine-info checksum: crc = ~crc & 0xff; crc += 1.
Python ints are arbitrary-precision twos complement, so ~crc is -crc - 1
and masking with 0xff is the floor remainder mod 256. -/
def machineCrc (r : List Nat) : Int :=
  (-(machineCrcRaw r : Int) - 1) % 256 + 1

/-- Python format spec .2f applied to software_version_hi * 1.0 +
software_version_lo * 1.0 / 100.0. Both operands are response bytes, so the
value has exactly two decimals and the float rounding recovers them; it is
computed here in integer hundredths. -/
def formatVersion (hi lo : Nat) : String :=
  let t := hi * 100 + lo
  Nat.repr (t / 100) ++ "." ++ (if t % 100 < 10 then "0" else "") ++ Nat.repr (t % 100)

/-- MachineInfo named tuple after all the _replace calls in
get_machine_info. Raw bytes unpacked with format >3xBBBBBBBBBBBBB6sBBhBBBBbB
from response[:32]; core_type is kept as its six raw bytes (the utf-8
decode with errors="replace" is not modelled, no claim depends on it). -/
structure MachineInfo : Type where
  Sys_Mem1 : Nat
  Sys_Mem2 : Nat
  Sys_Mem3 : Nat
  Sys_Mem4 : Nat
  Sys_Advance : Bool
  Sys_tUnit : String
  Sys_Buzzer_Tone : Nat
  Sys_Life_Hide : Bool
  Sys_LiHv_Hide : Bool
  Sys_Eneloop_Hide : Bool
  Sys_NiZn_Hide : Bool
  Sys_Lcd_time : Nat
  Sys_Min_Input : Nat
  core_type : List Nat
  upgrade_type : Nat
  is_encrypted : Bool
  customer_id : Int
  language_id : Nat
  software_version_hi : Nat
  software_version_lo : Nat
  hardware_version : Nat
  reserved : Int
  checksum : Nat
  software_version : String
  machine_id : String
deriving DecidableEq

/-- MC3000.get_machine_info on a device response: compute crc and
machine_id over response[16 + j], unpack MACHINE_INFO_STRUCT from
response[:32] (which needs at least 32 bytes), apply the _replace
conversions (the TEM_UNIT tuple lookup can raise IndexError before the
checksum is examined), then compare the finalized crc with the unpacked
checksum byte and raise on mismatch, so no record is returned. -/
def get_machine_info (r : List Nat) : Except String MachineInfo :=
  if 32 ≤ r.length then
    match TEM_UNIT.get? (u8 r 8) with
    | none => Except.error "IndexError: tuple index out of range"
    | some tu =>
        let m : MachineInfo := {
          Sys_Mem1 := u8 r 3
          Sys_Mem2 := u8 r 4
          Sys_Mem3 := u8 r 5
          Sys_Mem4 := u8 r 6
          Sys_Advance := u8 r 7 == 1
          Sys_tUnit := tu
          Sys_Buzzer_Tone := u8 r 9
          Sys_Life_Hide := u8 r 10 == 1
          Sys_LiHv_Hide := u8 r 11 == 1
          Sys_Eneloop_Hide := u8 r 12 == 1
          Sys_NiZn_Hide := u8 r 13 == 1
          Sys_Lcd_time := u8 r 14
          Sys_Min_Input := u8 r 15
          core_type := [u8 r 16, u8 r 17, u8 r 18, u8 r 19, u8 r 20, u8 r 21]
          upgrade_type := u8 r 22
          is_encrypted := u8 r 23 == 1
          customer_id := s16be r 24
          language_id := u8 r 26
          software_version_hi := u8 r 27
          software_version_lo := u8 r 28
          hardware_version := u8 r 29
          reserved := s8 r 30
          checksum := u8 r 31
          software_version := formatVersion (u8 r 27) (u8 r 28)
          machine_id := machineIdOf r }
        if machineCrc r = (m.checksum : Int) then Except.ok m
        else Except.error "Checksum error in device data packet"
  else Except.error "struct.error: unpack requires a buffer of 32 bytes"

/-- Battery named tuple after the _replace calls in get_battery_data. Raw
bytes unpacked with format >xBBBBhhhhhhhBBBBBhBhB33xB from the 64-byte
response; the four enumerated fields hold the looked-up labels. -/
structure Battery : Type where
  slot : Nat
  work : Nat
  type : String
  mode : String
  caps : Int
  cur : Int
  dCur : Int
  cut_volt : Int
  end_volt : Int
  end_cur : Int
  end_dcur : Int
  cycle_count : Nat
  cycle_delay : Nat
  cycle_mode : String
  peak_sense : Nat
  trickle : Nat
  hold_volt : Int
  cut_temp : Nat
  cut_time : Int
  tem_unit : String
  checksum : Nat
deriving DecidableEq

/-- The per-slot body of get_battery_data after the checksum test: unpack
CHARGE_DATA_STRUCT (which needs exactly 64 bytes) and resolve the type,
mode, cycle_mode and tem_unit codes through their tables in that order; a
missing dictionary key raises KeyError and an out-of-range tuple index
raises IndexError, both uncaught. -/
def decodeBattery (r : List Nat) : Except String Battery :=
  if r.length = 64 then
    match BATTERY_TYPE (u8 r 3) with
    | none => Except.error "KeyError: battery type"
    | some ty =>
        match BATTERY_MODE (u8 r 4) with
        | none => Except.error "KeyError: battery mode"
        | some md =>
            match CYCLE_MODE (u8 r 21) with
            | none => Except.error "KeyError: cycle mode"
            | some cm =>
                match TEM_UNIT.get? (u8 r 29) with
                | none => Except.error "IndexError: tuple index out of range"
                | some tu =>
                    Except.ok {
                      slot := u8 r 1
                      work := u8 r 2
                      type := ty
                      mode := md
                      caps := s16be r 5
                      cur := s16be r 7
                      dCur := s16be r 9
                      cut_volt := s16be r 11
                      end_volt := s16be r 13
                      end_cur := s16be r 15
                      end_dcur := s16be r 17
                      cycle_count := u8 r 19
                      cycle_delay := u8 r 20
                      cycle_mode := cm
                      peak_sense := u8 r 22
                      trickle := u8 r 23
                      hold_volt := s16be r 24
                      cut_temp := u8 r 26
                      cut_time := s16be r 27
                      tem_unit := tu
                      checksum := u8 r 63 }
  else Except.error "struct.error: unpack requires a buffer of 64 bytes"

/-- The four exception messages a slot decode can raise in decodeBattery:
one KeyError per dictionary-backed enumerated field and the IndexError of
the TEM_UNIT tuple lookup. -/
def isEnumLookupError (e : String) : Prop :=
  e = "KeyError: battery type" ∨ e = "KeyError: battery mode" ∨
  e = "KeyError: cycle mode" ∨ e = "IndexError: tuple index out of range"

/-- One iteration of the slot loop in get_battery_data: an already-raised
exception propagates; a failed checksum test is a continue; a decode
failure raises; a decoded battery is appended. -/
def battery_fold (resp : Nat → List Nat) (acc : Except String (List Battery))
    (slot : Nat) : Except String (List Battery) :=
  match acc with
  | Except.error e => Except.error e
  | Except.ok bs =>
      let r := resp slot
      if checksum_ok r then
        match decodeBattery r with
        | Except.ok b => Except.ok (bs ++ [b])
        | Except.error e => Except.error e
      else Except.ok bs

/-- MC3000.get_battery_data: for slot in range(4), send the
CMD_READ_CHARGER_DATA command, read the response (modelled by the resp
transport function) and run the per-slot body. -/
def get_battery_data (resp : Nat → List Nat) : Except String (List Battery) :=
  (List.range 4).foldl (battery_fold resp) (Except.ok [])

/-- ProgressInfo named tuple after the _replace calls in
get_charging_progress. Raw bytes unpacked with format
>xBBxBBhhhhhhxxxxxxB38xB; dcaps is the extra field appended as 0. -/
structure ProgressInfo : Type where
  slot : Nat
  type : Nat
  status : Nat
  work : Nat
  work_time : Int
  voltage : Int
  current : Int
  caps : Int
  bat_tem : Int
  inner_resistance : Int
  caps_decimal : Nat
  checksum : Nat
  dcaps : Int
deriving DecidableEq

/-- The per-slot body of get_charging_progress after the checksum test:
unpack PROGRESS_STATUS_STRUCT, append dcaps = 0, then apply the three
corrections of the source in order: dcaps = caps when work == 2, work_time
decremented when positive, and bat_tem &= 0x7fff. The mask of a signed
16-bit value with 0x7fff is its floor remainder mod 32768 (Python ints are
twos complement). -/
def progressOfFrame (r : List Nat) : ProgressInfo :=
  let p : ProgressInfo := {
    slot := u8 r 1
    type := u8 r 2
    status := u8 r 4
    work := u8 r 5
    work_time := s16be r 6
    voltage := s16be r 8
    current := s16be r 10
    caps := s16be r 12
    bat_tem := s16be r 14
    inner_resistance := s16be r 16
    caps_decimal := u8 r 24
    checksum := u8 r 63
    dcaps := 0 }
  let p := if p.work = 2 then { p with dcaps := p.caps } else p
  let p := if p.work_time > 0 then { p with work_time := p.work_time - 1 } else p
  { p with bat_tem := p.bat_tem % 32768 }

/-- The unpack step of get_charging_progress needs exactly 64 bytes. -/
def decode_progress (r : List Nat) : Except String ProgressInfo :=
  if r.length = 64 then Except.ok (progressOfFrame r)
  else Except.error "struct.error: unpack requires a buffer of 64 bytes"

/-- One iteration of the slot loop in get_charging_progress, with the same
continue-on-checksum-failure shape as battery_fold. -/
def progress_fold (resp : Nat → List Nat) (acc : Except String (List ProgressInfo))
    (slot : Nat) : Except String (List ProgressInfo) :=
  match acc with
  | Except.error e => Except.error e
  | Except.ok ps =>
      let r := resp slot
      if checksum_ok r then
        match decode_progress r with
        | Except.ok p => Except.ok (ps ++ [p])
        | Except.error e => Except.error e
      else Except.ok ps

/-- MC3000.get_charging_progress over a list of slots; the literal value
"all" for battery_slot stands for the slot list [0, 1, 2, 3]. -/
def get_charging_progress (resp : Nat → List Nat) (slots : List Nat) :
    Except String (List ProgressInfo) :=
  slots.foldl (progress_fold resp) (Except.ok [])

/-- The machine-info checksum as the spec sentence words it, for comparison
with the source computation: sum the 15 bytes immediately preceding the
trailing 16-byte block of the 64-byte response (offsets 33 to 47), then
take the twos complement the same way. -/
def machineCrcClaimed (r : List Nat) : Int :=
  (-(((List.range 15).map (fun j => r.getD (33 + j) 0)).sum : Int) - 1) % 256 + 1

/-- The machine-id string as the spec sentence words it, for comparison
with the source computation: render the trailing 16 bytes of the 64-byte
response (offsets 48 to 63). -/
def machineIdClaimed (r : List Nat) : String :=
  String.mk ((List.range 16).foldl (fun s j => s ++ byteHexChars (r.getD (48 + j) 0)) [])

/-- An all-zero 64-byte response frame. Its trailing checksum byte 0 equals
its generic checksum, and every enumerated code in it is mapped, so it
decodes as a battery or progress record. -/
def zeros64 : List Nat := List.replicate 64 0

/-- A 64-byte frame whose byte at offset 33 is 1 and whose byte at offset
31 (the embedded machine-info checksum field) is 255; all other bytes 0. -/
def rC1 : List Nat := ((List.replicate 64 0).set 31 255).set 33 1

/-- A 64-byte frame whose byte at offset 16 is 0xAB and whose byte at
offset 31 is 85; 85 is the valid machine-info checksum for it, since the
bytes at offsets 16 to 30 sum to 171. -/
def rC5 : List Nat := ((List.replicate 64 0).set 16 171).set 31 85

/-- A 64-byte battery response whose trailing byte 200 equals its generic
checksum and whose battery-type code 200 has no BATTERY_TYPE mapping. -/
def typeBadFrame : List Nat := [0, 0, 0, 200] ++ List.replicate 59 0 ++ [200]

/-- A 64-byte frame whose trailing byte 5 differs from its generic
checksum 0. -/
def badCkFrame : List Nat := List.replicate 63 0 ++ [5]

/-- A transport in which slot 0 answers with the unmapped-chemistry frame
and the other slots answer with decodable all-zero frames. -/
def respC6 : Nat → List Nat := fun s => if s = 0 then typeBadFrame else zeros64

/-- A transport in which slot 1 answers with a corrupted-checksum frame
and the other slots answer with decodable all-zero frames. -/
def respC7 : Nat → List Nat := fun s => if s = 1 then badCkFrame else zeros64

/-- A checksum-valid 64-byte progress response with work-mode code 2,
raw elapsed work time 10, accumulated capacity 1200 and raw temperature
field 0x8005 (signed value -32763). -/
def progressFrameW : List Nat :=
  [0, 0, 0, 0, 0, 2, 0, 10, 0, 0, 0, 0, 4, 176, 128, 5] ++ List.replicate 47 0 ++ [69]

/-! ## Generic 63-byte checksum (claim C2) -/

lemma foldl_mod_add (f : Nat → Nat) :
    ∀ (l : List Nat) (a : Nat),
      l.foldl (fun crc i => (crc + f i) % 256) (a % 256) = (a + (l.map f).sum) % 256 := by
  intro l
  induction l with
  | nil => intro a; simp
  | cons i t ih =>
      intro a
      have h1 : (a % 256 + f i) % 256 = (a + f i) % 256 := Nat.mod_add_mod a 256 (f i)
      calc (i :: t).foldl (fun crc i => (crc + f i) % 256) (a % 256)
          = t.foldl (fun crc i => (crc + f i) % 256) ((a + f i) % 256) := by
            simp [List.foldl_cons, h1]
        _ = (a + f i + (t.map f).sum) % 256 := ih (a + f i)
        _ = (a + ((i :: t).map f).sum) % 256 := by
            simp [List.map_cons, List.sum_cons]; ring_nf

lemma foldl_congr_on {α : Type} (g h : α → Nat → α) :
    ∀ (l : List Nat), (∀ i ∈ l, ∀ c, g c i = h c i) →
      ∀ a, l.foldl g a = l.foldl h a := by
  intro l
  induction l with
  | nil => intro _ _; rfl
  | cons i t ih =>
      intro hgh a
      simp only [List.foldl_cons]
      rw [hgh i (by simp)]
      exact ih (fun j hj c => hgh j (by simp [hj]) c) (h a i)

/-- C2: for every buffer of at least 63 bytes, packet_checksum returns the
sum of the bytes at positions 0 through 62 inclusive modulo 256; the result
is below 256 and depends only on those first 63 bytes. -/
theorem c2_packet_checksum (d : List Nat) (hlen : 63 ≤ d.length) :
    packet_checksum d = ((List.range 63).map (fun i => d.getD i 0)).sum % 256 ∧
    packet_checksum d < 256 ∧
    ∀ d2 : List Nat, (∀ i, i < 63 → d.getD i 0 = d2.getD i 0) →
      packet_checksum d = packet_checksum d2 := by
  have hsum : packet_checksum d = ((List.range 63).map (fun i => d.getD i 0)).sum % 256 := by
    have h0 : (0 : Nat) = 0 % 256 := rfl
    have := foldl_mod_add (fun i => d.getD i 0) (List.range 63) 0
    simpa [packet_checksum] using this
  refine ⟨hsum, ?_, ?_⟩
  · rw [hsum]; exact Nat.mod_lt _ (by norm_num)
  · intro d2 hbytes
    unfold packet_checksum
    exact foldl_congr_on _ _ (List.range 63)
      (fun i hi c => by rw [hbytes i (List.mem_range.mp hi)]) 0

/-- Concrete instance of c2_packet_checksum on a 64-byte buffer. -/
theorem c2_witness :
    63 ≤ (List.replicate 64 (0 : Nat)).length ∧
    (packet_checksum (List.replicate 64 (0 : Nat)) =
        ((List.range 63).map (fun i => (List.replicate 64 (0 : Nat)).getD i 0)).sum % 256 ∧
      packet_checksum (List.replicate 64 (0 : Nat)) < 256 ∧
      ∀ d2 : List Nat,
        (∀ i, i < 63 → (List.replicate 64 (0 : Nat)).getD i 0 = d2.getD i 0) →
        packet_checksum (List.replicate 64 (0 : Nat)) = packet_checksum d2) :=
  ⟨by decide, c2_packet_checksum (List.replicate 64 0) (by decide)⟩

/-! ## Command building (claims C3, C4, C9) -/

lemma packSignedByte_coe_nat (s : Nat) (h : s ≤ 127) :
    packSignedByte (s : Int) = some s := by
  unfold packSignedByte
  rw [if_pos (by omega)]
  congr 1
  omega

lemma send_charger_eq (s : Nat) (h : s ≤ 32) :
    send CMD_READ_CHARGER_DATA (s : Int) =
      SendResult.sent [0x0f, 0x04, 0x5f, 0x00, s, 0x5f + s, 0xff, 0xff] := by
  have h1 : packSignedByte (s : Int) = some s := packSignedByte_coe_nat s (by omega)
  have h2 : packSignedByte ((int_from_bytes_le CMD_READ_CHARGER_DATA : Int) + s) =
      some (0x5f + s) := by
    have hcast : (int_from_bytes_le CMD_READ_CHARGER_DATA : Int) + s = ((0x5f + s : Nat) : Int) := by
      show (((95 + 256 * 0 : Nat) : Int) + (s : Int)) = ((0x5f + s : Nat) : Int)
      push_cast
      ring
    rw [hcast]
    exact packSignedByte_coe_nat _ (by omega)
  unfold send
  rw [if_pos rfl]
  unfold pack_cmd
  rw [h1, h2]
  rfl

lemma send_progress_eq (s : Nat) (h : s ≤ 42) :
    send CMD_READ_PROGRESS_DATA (s : Int) =
      SendResult.sent [0x0f, 0x04, 0x55, 0x00, s, 0x55 + s, 0xff, 0xff] := by
  have h1 : packSignedByte (s : Int) = some s := packSignedByte_coe_nat s (by omega)
  have h2 : packSignedByte ((int_from_bytes_le CMD_READ_PROGRESS_DATA : Int) + s) =
      some (0x55 + s) := by
    have hcast : (int_from_bytes_le CMD_READ_PROGRESS_DATA : Int) + s = ((0x55 + s : Nat) : Int) := by
      show (((85 + 256 * 0 : Nat) : Int) + (s : Int)) = ((0x55 + s : Nat) : Int)
      push_cast
      ring
    rw [hcast]
    exact packSignedByte_coe_nat _ (by omega)
  unfold send
  rw [if_neg (by decide), if_pos rfl]
  unfold pack_cmd
  rw [h1, h2]
  rfl

/-- C3 as stated is false: the parameterized command frames built by send
are 8 bytes long, not 64. -/
theorem c3_counterexample :
    send CMD_READ_CHARGER_DATA 0 =
      SendResult.sent [0x0f, 0x04, 0x5f, 0x00, 0, 0x5f, 0xff, 0xff] ∧
    ([0x0f, 0x04, 0x5f, 0x00, 0, 0x5f, 0xff, 0xff] : List Nat).length ≠ 64 := by
  constructor
  · rfl
  · decide

/-- C3 amended: every command frame produced by send is exactly 8 bytes
long, laid out as the 2-byte header constant 0x0F04, the 1-byte opcode, 1
pad byte, the 1-byte slot argument, the 1-byte seqcheck byte and the 2-byte
tail constant 0xFFFF; this holds for every slot for which struct.pack
accepts both signed-byte fields. -/
theorem c3_frame_layout (s : Nat) :
    (s ≤ 32 →
      send CMD_READ_CHARGER_DATA (s : Int) =
        SendResult.sent ([0x0f, 0x04] ++ [0x5f] ++ [0x00] ++ [s] ++ [0x5f + s] ++ [0xff, 0xff]) ∧
      ([0x0f, 0x04] ++ [0x5f] ++ [0x00] ++ [s] ++ [0x5f + s] ++ ([0xff, 0xff] : List Nat)).length = 8) ∧
    (s ≤ 42 →
      send CMD_READ_PROGRESS_DATA (s : Int) =
        SendResult.sent ([0x0f, 0x04] ++ [0x55] ++ [0x00] ++ [s] ++ [0x55 + s] ++ [0xff, 0xff]) ∧
      ([0x0f, 0x04] ++ [0x55] ++ [0x00] ++ [s] ++ [0x55 + s] ++ ([0xff, 0xff] : List Nat)).length = 8) := by
  constructor
  · intro h
    refine ⟨?_, by simp⟩
    simpa using send_charger_eq s h
  · intro h
    refine ⟨?_, by simp⟩
    simpa using send_progress_eq s h

/-- Concrete instance of c3_frame_layout at slot 2. -/
theorem c3_witness :
    (2 ≤ 32 →
      send CMD_READ_CHARGER_DATA ((2 : Nat) : Int) =
        SendResult.sent ([0x0f, 0x04] ++ [0x5f] ++ [0x00] ++ [2] ++ [0x5f + 2] ++ [0xff, 0xff]) ∧
      ([0x0f, 0x04] ++ [0x5f] ++ [0x00] ++ [2] ++ [0x5f + 2] ++ ([0xff, 0xff] : List Nat)).length = 8) ∧
    (2 ≤ 42 →
      send CMD_READ_PROGRESS_DATA ((2 : Nat) : Int) =
        SendResult.sent ([0x0f, 0x04] ++ [0x55] ++ [0x00] ++ [2] ++ [0x55 + 2] ++ [0xff, 0xff]) ∧
      ([0x0f, 0x04] ++ [0x55] ++ [0x00] ++ [2] ++ [0x55 + 2] ++ ([0xff, 0xff] : List Nat)).length = 8) :=
  c3_frame_layout 2

/-- C4 as stated is false: for slot byte 33 the charger-config-read command
is not built at all, because struct.pack rejects the slotcmd value
0x5f + 33 = 128 for a signed byte field; no frame carries the seqcheck
byte (0x5f + 33) mod 256. -/
theorem c4_counterexample :
    send CMD_READ_CHARGER_DATA 33 = SendResult.packError := by
  rfl

/-- C4 amended: for every slot s small enough that both signed-byte pack
fields stay in range (s + opcode at most 127), building a
charger-config-read (0x5F) or progress-read (0x55) command places the byte
(opcode_int + s) mod 256 at offset 5 of the frame, so decoding that byte
from the built frame recovers (opcode_int + s) mod 256. -/
theorem c4_seqcheck (s : Nat) :
    (s ≤ 32 → ∃ f, send CMD_READ_CHARGER_DATA (s : Int) = SendResult.sent f ∧
      f.getD 5 0 = (0x5f + s) % 256) ∧
    (s ≤ 42 → ∃ f, send CMD_READ_PROGRESS_DATA (s : Int) = SendResult.sent f ∧
      f.getD 5 0 = (0x55 + s) % 256) := by
  constructor
  · intro h
    refine ⟨[0x0f, 0x04, 0x5f, 0x00, s, 0x5f + s, 0xff, 0xff], send_charger_eq s h, ?_⟩
    show 0x5f + s = (0x5f + s) % 256
    omega
  · intro h
    refine ⟨[0x0f, 0x04, 0x55, 0x00, s, 0x55 + s, 0xff, 0xff], send_progress_eq s h, ?_⟩
    show 0x55 + s = (0x55 + s) % 256
    omega

/-- Concrete instance of c4_seqcheck at slot 3. -/
theorem c4_witness :
    (3 ≤ 32 → ∃ f, send CMD_READ_CHARGER_DATA ((3 : Nat) : Int) = SendResult.sent f ∧
      f.getD 5 0 = (0x5f + 3) % 256) ∧
    (3 ≤ 42 → ∃ f, send CMD_READ_PROGRESS_DATA ((3 : Nat) : Int) = SendResult.sent f ∧
      f.getD 5 0 = (0x55 + 3) % 256) :=
  c4_seqcheck 3

/-- C9 as stated is false: an unrecognized opcode is not rejected with an
error; send falls through both branches and silently does nothing. Opcode
0x5A is the machine-info request opcode, which send does not support. -/
theorem c9_counterexample :
    send [0x5a] 0 = SendResult.ignored ∧
    ([0x5a] : List Nat) ≠ CMD_READ_CHARGER_DATA ∧
    ([0x5a] : List Nat) ≠ CMD_READ_PROGRESS_DATA := by
  refine ⟨rfl, by decide, by decide⟩

/-- C9 amended: building a command with any opcode outside the supported
set (progress-read 0x55, charger-config-read 0x5F) produces and sends no
frame, but raises no error either: the call is a silent no-op. -/
theorem c9_unknown_opcode (cmd : List Nat) (b : Int)
    (h1 : cmd ≠ CMD_READ_CHARGER_DATA) (h2 : cmd ≠ CMD_READ_PROGRESS_DATA) :
    send cmd b = SendResult.ignored := by
  unfold send
  rw [if_neg h1, if_neg h2]

/-- Concrete instance of c9_unknown_opcode at the start-command opcode. -/
theorem c9_witness :
    ([0x05] : List Nat) ≠ CMD_READ_CHARGER_DATA ∧
    ([0x05] : List Nat) ≠ CMD_READ_PROGRESS_DATA ∧
    send [0x05] 0 = SendResult.ignored :=
  ⟨by decide, by decide, c9_unknown_opcode [0x05] 0 (by decide) (by decide)⟩

/-! ## Machine-info decoding (claims C1, C5, C10) -/

lemma machineCrcRaw_eq (r : List Nat) :
    machineCrcRaw r = u8 r 16 + u8 r 17 + u8 r 18 + u8 r 19 + u8 r 20 + u8 r 21 + u8 r 22 +
      u8 r 23 + u8 r 24 + u8 r 25 + u8 r 26 + u8 r 27 + u8 r 28 + u8 r 29 + u8 r 30 := by
  simp [machineCrcRaw, u8, List.range_succ]

lemma get_machine_info_checksum_error (r : List Nat) (hlen : 32 ≤ r.length)
    (htu : u8 r 8 < 2) (hne : machineCrc r ≠ (u8 r 31 : Int)) :
    get_machine_info r = Except.error "Checksum error in device data packet" := by
  have h8 : u8 r 8 = 0 ∨ u8 r 8 = 1 := by omega
  rcases h8 with h8 | h8 <;>
  · unfold get_machine_info
    rw [if_pos hlen, h8]
    simp only [TEM_UNIT, List.get?]
    rw [if_neg hne]

/-- C1 as stated is false: on the frame rC1 the checksum computed the way
the claim words it (twos complement of the sum of the 15 bytes immediately
preceding the trailing 16-byte block) equals the embedded checksum field,
yet get_machine_info rejects the frame with a checksum error, because the
source sums the bytes at offsets 16 to 30 instead. -/
theorem c1_counterexample :
    machineCrcClaimed rC1 = (u8 rC1 31 : Int) ∧
    get_machine_info rC1 = Except.error "Checksum error in device data packet" :=
  ⟨by decide, rfl⟩

/-- C1 amended: the machine-info checksum is computed by summing the bytes
at offsets 16 to 30 of the response (the first 15 bytes of the 16-byte
machine-identifier block at offsets 16 to 31, which immediately precede the
embedded checksum byte at offset 31), taking the twos complement (bitwise
NOT, mask to one byte, add 1), and comparing the result to the embedded
checksum field; on mismatch (given an in-range temperature-unit selector,
whose lookup happens first) the call fails with a checksum error and no
record is returned, and on match a record is returned. -/
theorem c1_machine_checksum (r : List Nat) (hlen : 32 ≤ r.length) (htu : u8 r 8 < 2) :
    machineCrcRaw r = u8 r 16 + u8 r 17 + u8 r 18 + u8 r 19 + u8 r 20 + u8 r 21 + u8 r 22 +
      u8 r 23 + u8 r 24 + u8 r 25 + u8 r 26 + u8 r 27 + u8 r 28 + u8 r 29 + u8 r 30 ∧
    (machineCrc r ≠ (u8 r 31 : Int) →
      get_machine_info r = Except.error "Checksum error in device data packet") ∧
    (machineCrc r = (u8 r 31 : Int) → ∃ m, get_machine_info r = Except.ok m) := by
  refine ⟨machineCrcRaw_eq r, fun hne => get_machine_info_checksum_error r hlen htu hne, ?_⟩
  intro heq
  have h8 : u8 r 8 = 0 ∨ u8 r 8 = 1 := by omega
  rcases h8 with h8 | h8 <;>
  · apply Exists.intro
    unfold get_machine_info
    rw [if_pos hlen, h8]
    simp only [TEM_UNIT, List.get?]
    rw [if_pos heq]

/-- Concrete instance of c1_machine_checksum on the frame rC1. -/
theorem c1_witness :
    32 ≤ rC1.length ∧ u8 rC1 8 < 2 ∧
    (machineCrcRaw rC1 = u8 rC1 16 + u8 rC1 17 + u8 rC1 18 + u8 rC1 19 + u8 rC1 20 +
      u8 rC1 21 + u8 rC1 22 + u8 rC1 23 + u8 rC1 24 + u8 rC1 25 + u8 rC1 26 + u8 rC1 27 +
      u8 rC1 28 + u8 rC1 29 + u8 rC1 30 ∧
    (machineCrc rC1 ≠ (u8 rC1 31 : Int) →
      get_machine_info rC1 = Except.error "Checksum error in device data packet") ∧
    (machineCrc rC1 = (u8 rC1 31 : Int) → ∃ m, get_machine_info rC1 = Except.ok m)) :=
  ⟨by decide, by decide, c1_machine_checksum rC1 (by decide) (by decide)⟩

lemma byteHexChars_length (b : Nat) (hb : b < 256) : (byteHexChars b).length = 2 := by
  unfold byteHexChars padZero2 formatHexUpper
  by_cases h16 : b < 16
  · rw [if_pos h16]
    simp [String.length, List.replicate]
  · rw [if_neg h16]
    simp [String.length]

lemma machineIdChars_eq (r : List Nat) :
    machineIdChars r = ((List.range 16).map (fun j => r.getD (16 + j) 0)).flatMap byteHexChars := by
  simp [machineIdChars, List.range_succ]

/-- C5 as stated is false: on the frame rC5 the machine-id string built by
get_machine_info renders the bytes at offsets 16 to 31, not the trailing 16
bytes (offsets 48 to 63) of the 64-byte response, which are all zero. -/
theorem c5_counterexample :
    Except.map MachineInfo.machine_id (get_machine_info rC5) =
      Except.ok "AB000000000000000000000000000055" ∧
    machineIdClaimed rC5 = "00000000000000000000000000000000" ∧
    ("AB000000000000000000000000000055" : String) ≠ "00000000000000000000000000000000" :=
  ⟨rfl, rfl, by decide⟩

/-- C5 amended: get_machine_info forms the machine-id string from the
16-byte machine-identifier block at offsets 16 to 31 of the response (the
trailing 16 bytes of the 32-byte unpacked record, not of the whole 64-byte
response), rendering each of those 16 bytes as two uppercase, zero-padded
hexadecimal digits concatenated in order, giving a 32-character string;
any record the call returns carries exactly this string. -/
theorem c5_machine_id (r : List Nat) (hb : ∀ j, j < 16 → r.getD (16 + j) 0 < 256) :
    machineIdOf r =
      String.mk (((List.range 16).map (fun j => r.getD (16 + j) 0)).flatMap byteHexChars) ∧
    (machineIdOf r).length = 32 ∧
    (∀ m : MachineInfo, get_machine_info r = Except.ok m → m.machine_id = machineIdOf r) := by
  refine ⟨by rw [machineIdOf, machineIdChars_eq], ?_, ?_⟩
  · show (machineIdChars r).length = 32
    rw [machineIdChars_eq]
    simp only [List.range_succ, List.range_zero, List.map_append, List.map_cons, List.map_nil,
      List.nil_append, List.flatMap_append, List.flatMap_cons, List.flatMap_nil,
      List.length_append, List.append_nil]
    rw [byteHexChars_length _ (hb 0 (by omega)), byteHexChars_length _ (hb 1 (by omega)),
      byteHexChars_length _ (hb 2 (by omega)), byteHexChars_length _ (hb 3 (by omega)),
      byteHexChars_length _ (hb 4 (by omega)), byteHexChars_length _ (hb 5 (by omega)),
      byteHexChars_length _ (hb 6 (by omega)), byteHexChars_length _ (hb 7 (by omega)),
      byteHexChars_length _ (hb 8 (by omega)), byteHexChars_length _ (hb 9 (by omega)),
      byteHexChars_length _ (hb 10 (by omega)), byteHexChars_length _ (hb 11 (by omega)),
      byteHexChars_length _ (hb 12 (by omega)), byteHexChars_length _ (hb 13 (by omega)),
      byteHexChars_length _ (hb 14 (by omega)), byteHexChars_length _ (hb 15 (by omega))]
  · intro m h
    unfold get_machine_info at h
    split at h
    · split at h
      · cases h
      · dsimp only at h
        split at h
        · cases h
          rfl
        · cases h
    · cases h

/-- Concrete instance of c5_machine_id on the frame rC5. -/
theorem c5_witness :
    (∀ j, j < 16 → rC5.getD (16 + j) 0 < 256) ∧
    (machineIdOf rC5 =
      String.mk (((List.range 16).map (fun j => rC5.getD (16 + j) 0)).flatMap byteHexChars) ∧
    (machineIdOf rC5).length = 32 ∧
    (∀ m : MachineInfo, get_machine_info rC5 = Except.ok m → m.machine_id = machineIdOf rC5)) :=
  ⟨by decide, c5_machine_id rC5 (by decide)⟩

/-- C10: for every 64-byte machine-info response of bytes whose offsets 16
through 30 sum to a multiple of 256, the machine-info checksum computation
yields 256 (bitwise NOT of the sum masked to one byte gives 255, plus 1),
which can never equal the one-byte embedded checksum field, so
get_machine_info never returns a record for such a frame, and fails with
the checksum error whenever the temperature-unit lookup let it reach the
comparison. -/
theorem c10_info_checksum_zero_sum (r : List Nat) (hlen : r.length = 64)
    (hb : ∀ b ∈ r, b < 256)
    (hsum : (u8 r 16 + u8 r 17 + u8 r 18 + u8 r 19 + u8 r 20 + u8 r 21 + u8 r 22 + u8 r 23 +
      u8 r 24 + u8 r 25 + u8 r 26 + u8 r 27 + u8 r 28 + u8 r 29 + u8 r 30) % 256 = 0) :
    (-(machineCrcRaw r : Int) - 1) % 256 = 255 ∧
    machineCrc r = 256 ∧
    (∀ m : MachineInfo, get_machine_info r ≠ Except.ok m) ∧
    (u8 r 8 < 2 → get_machine_info r = Except.error "Checksum error in device data packet") := by
  have hraw : machineCrcRaw r % 256 = 0 := by rw [machineCrcRaw_eq]; exact hsum
  have h255 : (-(machineCrcRaw r : Int) - 1) % 256 = 255 := by omega
  have h256 : machineCrc r = 256 := by unfold machineCrc; omega
  have hfield : u8 r 31 < 256 := by
    have hlt : 31 < r.length := by omega
    have h31 : u8 r 31 = r[31] := List.getD_eq_getElem r 0 hlt
    rw [h31]
    exact hb _ (List.getElem_mem hlt)
  have hne : machineCrc r ≠ (u8 r 31 : Int) := by omega
  refine ⟨h255, h256, ?_, fun htu => get_machine_info_checksum_error r (by omega) htu hne⟩
  intro m hm
  by_cases htu : u8 r 8 < 2
  · rw [get_machine_info_checksum_error r (by omega) htu hne] at hm
    cases hm
  · have hnone : TEM_UNIT.get? (u8 r 8) = none := by
      apply List.get?_eq_none.mpr
      show TEM_UNIT.length ≤ u8 r 8
      simp [TEM_UNIT]
      omega
    unfold get_machine_info at hm
    rw [if_pos (by omega), hnone] at hm
    cases hm

/-- Concrete instance of c10_info_checksum_zero_sum on the all-zero frame. -/
theorem c10_witness :
    zeros64.length = 64 ∧ (∀ b ∈ zeros64, b < 256) ∧
    ((u8 zeros64 16 + u8 zeros64 17 + u8 zeros64 18 + u8 zeros64 19 + u8 zeros64 20 +
      u8 zeros64 21 + u8 zeros64 22 + u8 zeros64 23 + u8 zeros64 24 + u8 zeros64 25 +
      u8 zeros64 26 + u8 zeros64 27 + u8 zeros64 28 + u8 zeros64 29 + u8 zeros64 30) % 256 = 0) ∧
    ((-(machineCrcRaw zeros64 : Int) - 1) % 256 = 255 ∧
    machineCrc zeros64 = 256 ∧
    (∀ m : MachineInfo, get_machine_info zeros64 ≠ Except.ok m) ∧
    (u8 zeros64 8 < 2 →
      get_machine_info zeros64 = Except.error "Checksum error in device data packet")) :=
  ⟨by decide, by decide, by decide,
    c10_info_checksum_zero_sum zeros64 (by decide) (by decide) (by decide)⟩

/-! ## Battery and progress scans (claims C6, C7, C8) -/

lemma battery_scan_ok (resp : Nat → List Nat) :
    ∀ (l : List Nat) (bs : List Battery),
      (∀ s ∈ l, checksum_ok (resp s) = true → (decodeBattery (resp s)).isOk = true) →
      l.foldl (battery_fold resp) (Except.ok bs) =
        Except.ok (bs ++ l.filterMap (fun s =>
          if checksum_ok (resp s) then (decodeBattery (resp s)).toOption else none)) := by
  intro l
  induction l with
  | nil => intro bs _; simp
  | cons s t ih =>
      intro bs h
      by_cases hck : checksum_ok (resp s) = true
      · obtain ⟨b, hb⟩ : ∃ b, decodeBattery (resp s) = Except.ok b := by
          have hok := h s (by simp) hck
          cases hdb : decodeBattery (resp s) with
          | ok b => exact ⟨b, rfl⟩
          | error e => rw [hdb] at hok; simp [Except.isOk, Except.toBool] at hok
        have hstep : battery_fold resp (Except.ok bs) s = Except.ok (bs ++ [b]) := by
          simp [battery_fold, hck, hb]
        rw [List.foldl_cons, hstep, ih (bs ++ [b]) (fun s2 hs2 => h s2 (by simp [hs2]))]
        simp [List.filterMap_cons, hck, hb, Except.toOption]
      · have hstep : battery_fold resp (Except.ok bs) s = Except.ok bs := by
          simp [battery_fold, hck]
        rw [List.foldl_cons, hstep, ih bs (fun s2 hs2 => h s2 (by simp [hs2]))]
        simp [List.filterMap_cons, hck]

lemma progress_scan_ok (rp : Nat → List Nat) :
    ∀ (l : List Nat) (ps : List ProgressInfo), (∀ s ∈ l, (rp s).length = 64) →
      ∃ out, l.foldl (progress_fold rp) (Except.ok ps) = Except.ok out := by
  intro l
  induction l with
  | nil => intro ps _; exact ⟨ps, rfl⟩
  | cons s t ih =>
      intro ps h
      by_cases hck2 : checksum_ok (rp s) = true
      · have hdp : decode_progress (rp s) = Except.ok (progressOfFrame (rp s)) := by
          unfold decode_progress
          rw [if_pos (h s (by simp))]
        have hstep : progress_fold rp (Except.ok ps) s =
            Except.ok (ps ++ [progressOfFrame (rp s)]) := by
          simp [progress_fold, hck2, hdp]
        rw [List.foldl_cons, hstep]
        exact ih _ (fun s2 hs2 => h s2 (by simp [hs2]))
      · have hstep : progress_fold rp (Except.ok ps) s = Except.ok ps := by
          simp [progress_fold, hck2]
        rw [List.foldl_cons, hstep]
        exact ih _ (fun s2 hs2 => h s2 (by simp [hs2]))

/-- C6 as stated is false: in the transport respC6 the slot-0 frame passes
its checksum but carries the unmapped chemistry code 200, the frames of
slots 1 to 3 decode successfully, and yet get_battery_data does not omit
slot 0 and continue: the whole call aborts with the lookup error, so no
record of the remaining slots is returned. -/
theorem c6_counterexample :
    checksum_ok (respC6 0) = true ∧ BATTERY_TYPE (u8 (respC6 0) 3) = none ∧
    (decodeBattery (respC6 1)).isOk = true ∧ (decodeBattery (respC6 2)).isOk = true ∧
    (decodeBattery (respC6 3)).isOk = true ∧
    get_battery_data respC6 = Except.error "KeyError: battery type" :=
  ⟨by decide, by decide, by decide, by decide, by decide, rfl⟩

lemma decodeBattery_error_of_bad (r : List Nat) (hlen : r.length = 64)
    (hbad : BATTERY_TYPE (u8 r 3) = none ∨ BATTERY_MODE (u8 r 4) = none ∨
      CYCLE_MODE (u8 r 21) = none ∨ TEM_UNIT.get? (u8 r 29) = none) :
    ∃ e, decodeBattery r = Except.error e := by
  unfold decodeBattery
  rw [if_pos hlen]
  cases hty : BATTERY_TYPE (u8 r 3) with
  | none => exact ⟨_, rfl⟩
  | some ty =>
    cases hmd : BATTERY_MODE (u8 r 4) with
    | none => exact ⟨_, rfl⟩
    | some md =>
      cases hcy : CYCLE_MODE (u8 r 21) with
      | none => exact ⟨_, rfl⟩
      | some cy =>
        cases htu : TEM_UNIT.get? (u8 r 29) with
        | none => exact ⟨_, rfl⟩
        | some tu =>
          rcases hbad with h | h | h | h
          · rw [h] at hty; cases hty
          · rw [h] at hmd; cases hmd
          · rw [h] at hcy; cases hcy
          · rw [h] at htu; cases htu

lemma decodeBattery_error_class (r : List Nat) (hlen : r.length = 64) (e : String)
    (h : decodeBattery r = Except.error e) : isEnumLookupError e := by
  unfold decodeBattery at h
  rw [if_pos hlen] at h
  cases hty : BATTERY_TYPE (u8 r 3) with
  | none => rw [hty] at h; cases h; exact Or.inl rfl
  | some ty =>
    rw [hty] at h
    cases hmd : BATTERY_MODE (u8 r 4) with
    | none => rw [hmd] at h; cases h; exact Or.inr (Or.inl rfl)
    | some md =>
      rw [hmd] at h
      cases hcy : CYCLE_MODE (u8 r 21) with
      | none => rw [hcy] at h; cases h; exact Or.inr (Or.inr (Or.inl rfl))
      | some cy =>
        rw [hcy] at h
        cases htu : TEM_UNIT.get? (u8 r 29) with
        | none => rw [htu] at h; cases h; exact Or.inr (Or.inr (Or.inr rfl))
        | some tu => rw [htu] at h; cases h

lemma battery_fold_error (resp : Nat → List Nat) (e : String) :
    ∀ l : List Nat, l.foldl (battery_fold resp) (Except.error e) = Except.error e := by
  intro l
  induction l with
  | nil => rfl
  | cons s t ih => rw [List.foldl_cons]; exact ih

lemma battery_scan_error (resp : Nat → List Nat) :
    ∀ (l : List Nat) (bs : List Battery) (k : Nat), k ∈ l →
      (∀ s ∈ l, (resp s).length = 64) →
      checksum_ok (resp k) = true →
      (∃ ek, decodeBattery (resp k) = Except.error ek) →
      ∃ e, l.foldl (battery_fold resp) (Except.ok bs) = Except.error e ∧ isEnumLookupError e := by
  intro l
  induction l with
  | nil => intro bs k hk; cases hk
  | cons s t ih =>
      intro bs k hk hlen hck hde
      obtain ⟨ek, hdk⟩ := hde
      by_cases hcs : checksum_ok (resp s) = true
      · cases hds : decodeBattery (resp s) with
        | error e3 =>
            have hstep : battery_fold resp (Except.ok bs) s = Except.error e3 := by
              simp [battery_fold, hcs, hds]
            rw [List.foldl_cons, hstep, battery_fold_error resp e3 t]
            exact ⟨e3, rfl, decodeBattery_error_class (resp s) (hlen s (by simp)) e3 hds⟩
        | ok b =>
            have hstep : battery_fold resp (Except.ok bs) s = Except.ok (bs ++ [b]) := by
              simp [battery_fold, hcs, hds]
            rw [List.foldl_cons, hstep]
            have hkt : k ∈ t := by
              rcases List.mem_cons.mp hk with hks | hkt
              · subst hks; rw [hds] at hdk; cases hdk
              · exact hkt
            exact ih (bs ++ [b]) k hkt (fun s2 hs2 => hlen s2 (by simp [hs2])) hck ⟨ek, hdk⟩
      · have hstep : battery_fold resp (Except.ok bs) s = Except.ok bs := by
          simp [battery_fold, hcs]
        rw [List.foldl_cons, hstep]
        have hkt : k ∈ t := by
          rcases List.mem_cons.mp hk with hks | hkt
          · subst hks; exact absurd hck hcs
          · exact hkt
        exact ih bs k hkt (fun s2 hs2 => hlen s2 (by simp [hs2])) hck ⟨ek, hdk⟩

/-- C6 amended: whenever any slot of the scan answers with a checksum-valid
battery frame containing an enumerated code with no defined mapping - in
any of the four enumerated fields: chemistry, mode, cycle-mode, or
temperature unit - the whole get_battery_data call fails with one of the
uncaught lookup errors, and no record list is returned at all, losing the
other slots (those decoded before the bad one included); in progress
decoding the enumerated codes are not validated at all: the scan never
fails on them (given 64-byte frames) and the raw chemistry code is copied
through unchanged. -/
theorem c6_enum_failure (resp : Nat → List Nat) (k : Nat) (hk : k < 4)
    (hlen : ∀ s, s < 4 → (resp s).length = 64)
    (hck : checksum_ok (resp k) = true)
    (hbad : BATTERY_TYPE (u8 (resp k) 3) = none ∨ BATTERY_MODE (u8 (resp k) 4) = none ∨
      CYCLE_MODE (u8 (resp k) 21) = none ∨ TEM_UNIT.get? (u8 (resp k) 29) = none) :
    (∃ e, get_battery_data resp = Except.error e ∧ isEnumLookupError e) ∧
    (∀ bs : List Battery, get_battery_data resp ≠ Except.ok bs) ∧
    (∀ rp : Nat → List Nat, ∀ slots : List Nat, (∀ s ∈ slots, (rp s).length = 64) →
      ∃ ps, get_charging_progress rp slots = Except.ok ps) ∧
    (∀ fr : List Nat, (progressOfFrame fr).type = u8 fr 2) := by
  have hde := decodeBattery_error_of_bad (resp k) (hlen k hk) hbad
  obtain ⟨e, he, hcls⟩ := battery_scan_error resp (List.range 4) [] k
    (List.mem_range.mpr hk) (fun s hs => hlen s (List.mem_range.mp hs)) hck hde
  have he2 : get_battery_data resp = Except.error e := he
  refine ⟨⟨e, he2, hcls⟩, ?_, ?_, ?_⟩
  · intro bs hbs
    rw [he2] at hbs
    cases hbs
  · intro rp slots hl
    exact progress_scan_ok rp slots [] hl
  · intro fr
    by_cases hw : u8 fr 5 = 2 <;> by_cases ht : s16be fr 6 > 0 <;>
      simp [progressOfFrame, hw, ht]

/-- Concrete instance of c6_enum_failure on the transport respC6, whose
slot-0 frame is checksum-valid with the unmapped chemistry code 200. -/
theorem c6_witness :
    0 < 4 ∧ (∀ s, s < 4 → (respC6 s).length = 64) ∧ checksum_ok (respC6 0) = true ∧
    (BATTERY_TYPE (u8 (respC6 0) 3) = none ∨ BATTERY_MODE (u8 (respC6 0) 4) = none ∨
      CYCLE_MODE (u8 (respC6 0) 21) = none ∨ TEM_UNIT.get? (u8 (respC6 0) 29) = none) ∧
    ((∃ e, get_battery_data respC6 = Except.error e ∧ isEnumLookupError e) ∧
    (∀ bs : List Battery, get_battery_data respC6 ≠ Except.ok bs) ∧
    (∀ rp : Nat → List Nat, ∀ slots : List Nat, (∀ s ∈ slots, (rp s).length = 64) →
      ∃ ps, get_charging_progress rp slots = Except.ok ps) ∧
    (∀ fr : List Nat, (progressOfFrame fr).type = u8 fr 2)) :=
  ⟨by decide, by decide, by decide, Or.inl (by decide),
    c6_enum_failure respC6 0 (by decide) (by decide) (by decide) (Or.inl (by decide))⟩

/-- C7: get_battery_data queries slots 0 through 3 in order; any slot whose
response frame's trailing checksum byte does not equal the generic 63-byte
checksum is skipped without raising, and, provided every checksum-valid
slot decodes, the call returns the list of successfully decoded slots in
slot order (at most 4 entries, checksum-corrupted slots simply absent). -/
theorem c7_battery_scan (resp : Nat → List Nat)
    (hdec : ∀ s, s < 4 → checksum_ok (resp s) = true → (decodeBattery (resp s)).isOk = true) :
    get_battery_data resp =
      Except.ok ((List.range 4).filterMap (fun s =>
        if checksum_ok (resp s) then (decodeBattery (resp s)).toOption else none)) ∧
    ((List.range 4).filterMap (fun s =>
        if checksum_ok (resp s) then (decodeBattery (resp s)).toOption else none)).length ≤ 4 := by
  constructor
  · unfold get_battery_data
    have := battery_scan_ok resp (List.range 4) []
      (fun s hs => hdec s (List.mem_range.mp hs))
    simpa using this
  · calc ((List.range 4).filterMap _).length ≤ (List.range 4).length :=
        List.length_filterMap_le _ _
      _ = 4 := by simp

/-- Concrete instance of c7_battery_scan on the transport respC7, in which
the slot-1 frame has a corrupted trailing checksum byte: the result has the
three other slots and slot 1 is absent. -/
theorem c7_witness :
    (∀ s, s < 4 → checksum_ok (respC7 s) = true → (decodeBattery (respC7 s)).isOk = true) ∧
    checksum_ok (respC7 1) = false ∧
    (get_battery_data respC7 =
      Except.ok ((List.range 4).filterMap (fun s =>
        if checksum_ok (respC7 s) then (decodeBattery (respC7 s)).toOption else none)) ∧
    ((List.range 4).filterMap (fun s =>
        if checksum_ok (respC7 s) then (decodeBattery (respC7 s)).toOption else none)).length ≤ 4) :=
  ⟨by decide, by decide, c7_battery_scan respC7 (by decide)⟩

/-- C8: for every checksum-valid 64-byte progress frame the decode applies
exactly the derived corrections of the source: dcaps equals the
accumulated-capacity field when the work-mode code is 2 and is 0
otherwise; a positive raw elapsed work time is decremented by one and a
raw value of 0 (or any nonpositive value) is kept; and the decoded battery
temperature is the raw signed temperature field masked with 0x7fff, that
is, its floor remainder mod 32768. -/
theorem c8_progress_corrections (r : List Nat) (hlen : r.length = 64)
    (hck : checksum_ok r = true) :
    get_charging_progress (fun _ => r) [0] = Except.ok [progressOfFrame r] ∧
    (progressOfFrame r).dcaps = (if u8 r 5 = 2 then s16be r 12 else 0) ∧
    (progressOfFrame r).work_time = (if s16be r 6 > 0 then s16be r 6 - 1 else s16be r 6) ∧
    (progressOfFrame r).bat_tem = s16be r 14 % 32768 := by
  refine ⟨?_, ?_, ?_, ?_⟩
  · have hdp : decode_progress r = Except.ok (progressOfFrame r) := by
      unfold decode_progress
      rw [if_pos hlen]
    simp [get_charging_progress, progress_fold, hck, hdp]
  · by_cases hw : u8 r 5 = 2 <;> by_cases ht : s16be r 6 > 0 <;>
      simp [progressOfFrame, hw, ht]
  · by_cases hw : u8 r 5 = 2 <;> by_cases ht : s16be r 6 > 0 <;>
      simp [progressOfFrame, hw, ht]
  · by_cases hw : u8 r 5 = 2 <;> by_cases ht : s16be r 6 > 0 <;>
      simp [progressOfFrame, hw, ht]

/-- Concrete instance of c8_progress_corrections on progressFrameW, whose
raw fields are work-mode 2, elapsed time 10, capacity 1200 and signed
temperature -32763: the decode yields dcaps 1200, work_time 9 and
bat_tem 5. -/
theorem c8_witness :
    progressFrameW.length = 64 ∧ checksum_ok progressFrameW = true ∧
    (get_charging_progress (fun _ => progressFrameW) [0] =
        Except.ok [progressOfFrame progressFrameW] ∧
    (progressOfFrame progressFrameW).dcaps =
        (if u8 progressFrameW 5 = 2 then s16be progressFrameW 12 else 0) ∧
    (progressOfFrame progressFrameW).work_time =
        (if s16be progressFrameW 6 > 0 then s16be progressFrameW 6 - 1
         else s16be progressFrameW 6) ∧
    (progressOfFrame progressFrameW).bat_tem = s16be progressFrameW 14 % 32768) ∧
    (progressOfFrame progressFrameW).dcaps = 1200 ∧
    (progressOfFrame progressFrameW).work_time = 9 ∧
    (progressOfFrame progressFrameW).bat_tem = 5 :=
  ⟨by decide, by decide,
    c8_progress_corrections progressFrameW (by decide) (by decide),
    by decide, by decide, by decide⟩

end MC3000
